import Mathlib

/-!
Shallow embedding of the payment order lifecycle and webhook reconciliation
engine of moa_backend, translated from:

- src/backend/app/api/payments/models.py      (data model)
- src/backend/app/api/payments/service.py     (create_razorpay_order,
  verify_razorpay_payment, handle_razorpay_webhook)
- src/backend/app/api/payments/handlers.py    (validate_payload,
  validate_event_registration_payload, handle_post_payment,
  handle_event_registration_payment)
- src/backend/app/api/payments/router.py      (razorpay_webhook endpoint)
- src/backend/app/db/mixins.py, listeners.py  (soft-delete loader criterion)
- src/backend/app/api/events/models.py        (EventRegistrationsLink, Events)

Modelling conventions: the database is an explicit state record; each service
function takes the committed state and returns the committed state after the
call, a trace of external effects (gateway calls, dispatcher invocation,
e-mails), and an Except result mirroring the Python return value or the raised
exception.  A commit applies the session's in-memory mutations to the state;
an exception raised before a commit leaves the committed state unchanged
(the session is rolled back on context exit).  Monetary Float columns are
modelled as rationals; gateway amounts are integers (minor units).  UUID
primary keys are modelled as naturals drawn from a fresh-id counter.
-/

namespace Moa

/-- OrderStatus enum from models.py. -/
inductive OrderStatus
  | created
  | attempted
  | paid
deriving DecidableEq, Repr

/-- PaymentStatus enum from models.py. -/
inductive PaymentStatus
  | created
  | authorized
  | captured
  | refunded
  | disputed
  | pending
  | failed
deriving DecidableEq, Repr

/-- Coercion of a raw status string into the PaymentStatus enum, as SQLAlchemy
performs when a string is assigned to the Enum column and flushed. -/
def PaymentStatus.ofString : String → Option PaymentStatus
  | "created" => some .created
  | "authorized" => some .authorized
  | "captured" => some .captured
  | "refunded" => some .refunded
  | "disputed" => some .disputed
  | "pending" => some .pending
  | "failed" => some .failed
  | _ => none

/-- Values of the creation-request payload dict (map of string to string or int,
per OrderCreateRequest in schemas.py). -/
inductive PVal
  | s (v : String)
  | i (v : Int)
deriving DecidableEq, Repr

/-- The creation-request payload dict. -/
abbrev PDict := List (String × PVal)

/-- Dict lookup, payload.get(k). -/
def pdictGet (d : PDict) (k : String) : Option PVal :=
  (d.find? (fun kv => kv.1 == k)).map (fun kv => kv.2)

/-- Equality test between a payload value and an integer id column; a
string-typed value does not match an integer column in this model. -/
def pvalEqNat (v : PVal) (n : Nat) : Bool :=
  match v with
  | .i m => m == (n : Int)
  | .s _ => false

/-- JSON sub-objects of a gateway payment that the normalization step
manipulates as dicts of nullable strings (acquirer_data and friends). -/
abbrev JDict := List (String × Option String)

/-- Dict lookup returning null for a missing key, d.get(k, None). -/
def jdictGet (d : JDict) (k : String) : Option String :=
  ((d.find? (fun kv => kv.1 == k)).map (fun kv => kv.2)).join

/-- Dict update d[k] = v. -/
def jdictSet (d : JDict) (k : String) (v : Option String) : JDict :=
  if d.any (fun kv => kv.1 == k) then
    d.map (fun kv => if kv.1 == k then (k, v) else kv)
  else d ++ [(k, v)]

/-- The normalized method-specific payment_details JSON written to the
PaymentLogs row: null, a bare sub-object, or a dict. -/
inductive MethodDetails
  | jnull
  | jstr (s : String)
  | jdict (d : JDict)
deriving DecidableEq, Repr

/-- PaymentOrders row (models.py lines 27-48).  The relationship attributes are
resolved through the state instead of being stored. -/
structure PaymentOrder where
  id : Nat
  receipt : String
  razorpay_receipt : String
  razorpay_order_id : String
  amount : Rat
  currency : String
  status : OrderStatus
  user_id : Option Nat
  source : String
  payload : PDict
  is_deleted : Bool
deriving DecidableEq, Repr

/-- PaymentLogs row (models.py lines 51-69). -/
structure PaymentLog where
  id : Nat
  order_id : Nat
  razorpay_payment_id : String
  status : PaymentStatus
  amount : Rat
  payment_method : Option String
  payment_details : Option MethodDetails
  is_deleted : Bool
deriving DecidableEq, Repr

/-- Raw payment entity as reported by the gateway (the fields read by
verify_razorpay_payment and handle_razorpay_webhook). -/
structure GatewayPayment where
  id : Option String
  order_id : Option String
  status : Option String
  method : Option String
  amount : Option Int
  upi : Option String
  acquirer_data : Option JDict
  wallet : Option String
deriving DecidableEq, Repr

/-- Inner wrapper of the webhook payload, data.payload.payment. -/
structure WebhookPaymentWrap where
  entity : Option GatewayPayment
deriving DecidableEq, Repr

/-- Webhook payload object, data.payload. -/
structure WebhookPayload where
  payment : Option WebhookPaymentWrap
deriving DecidableEq, Repr

/-- Parsed webhook request body. -/
structure WebhookData where
  entity : Option String
  event : Option String
  payload : Option WebhookPayload
deriving DecidableEq, Repr

/-- RazorpayWebhookLogs row (models.py lines 72-85).  event_id carries a
unique constraint. -/
structure RazorpayWebhookLog where
  id : Nat
  event_id : String
  entity : Option String
  event : Option String
  signature : String
  payload : Option WebhookPayload
  is_deleted : Bool
deriving DecidableEq, Repr

/-- EventRegistrationsLink row (events/models.py lines 137-166), restricted to
the columns the payment subsystem reads or writes. -/
structure EventRegistrationsLink where
  id : Nat
  event_id : Nat
  user_id : Nat
  ticket_id : String
  is_paid : Bool
  paid_amount : Rat
  actual_amount : Rat
  payment_receipt : Option String
  is_deleted : Bool
deriving DecidableEq, Repr

/-- Events row, restricted to what the payment subsystem needs (the existence
check of the resolver and the best-effort confirmation e-mail lookup). -/
structure EventRow where
  id : Nat
  is_deleted : Bool
deriving DecidableEq, Repr

/-- Users row, restricted to what the receipt-email branch needs. -/
structure UserRow where
  id : Nat
  is_deleted : Bool
deriving DecidableEq, Repr

/-- Committed database state. -/
structure DBState where
  events : List EventRow
  registrations : List EventRegistrationsLink
  orders : List PaymentOrder
  paymentLogs : List PaymentLog
  webhookLogs : List RazorpayWebhookLog
  users : List UserRow
  nextId : Nat
deriving DecidableEq, Repr

/-- Externally visible effects of a call: gateway network calls, the
post-payment dispatcher, and e-mail side effects. -/
inductive Effect
  | gatewayOrderCreate (amount : Int) (currency : String) (receipt : String)
  | gatewayPaymentFetch (payment_id : String) (expanded : Bool)
  | postPaymentDispatch (order_id : Nat)
  | verifierInvoked (order_id : String) (payment_id : String)
  | paymentReceiptEmail (order_id : Nat)
  | registrationConfirmationEmail (registration_id : Nat)
deriving DecidableEq, Repr

/-- Exceptions raised by the embedded code. -/
inductive PyErr
  | requestValidation (errors : List (String × String))
  | attributeErrorNone (attr : String)
  | typeErrorNone
  | integrityError (constraint : String)
  | httpError (status : Nat) (detail : String)
deriving DecidableEq, Repr

instance instDecEqExcept {ε α : Type} [DecidableEq ε] [DecidableEq α] :
    DecidableEq (Except ε α) := fun a b => by
  cases a <;> cases b
  case error.error e f => exact decidable_of_iff (e = f) (by simp)
  case error.ok e x => exact .isFalse (by simp)
  case ok.error x e => exact .isFalse (by simp)
  case ok.ok x y => exact decidable_of_iff (x = y) (by simp)

/-- Outcome of a service call: committed state, effect trace, and the returned
value or raised exception. -/
structure Out (α : Type) where
  state : DBState
  effects : List Effect
  result : Except PyErr α
deriving DecidableEq, Repr

/-- Environment: wall clock, gateway client responses and webhook signature
verification (razorpay_client in service.py / router.py). -/
structure Env where
  now : Nat
  createOrderId : String
  fetchPayment : String → GatewayPayment
  fetchPaymentExpanded : String → GatewayPayment
  webhookSignatureValid : String → String → Bool

/-! Session reads.  add_loader_criteria (db/listeners.py) installs a
with_loader_criteria option on every ORM execution of the session, filtering
every mapped class on is_deleted being false; each lookup below therefore
tests is_deleted before its own predicate. -/

/-- Order lookup by receipt (service.py lines 43-45). -/
def findOrderByReceipt (s : DBState) (receipt : String) : Option PaymentOrder :=
  s.orders.find? (fun o => !o.is_deleted && o.receipt == receipt)

/-- Order lookup by gateway order id (service.py lines 88-92). -/
def findOrderByRzpOrderId (s : DBState) (oid : String) : Option PaymentOrder :=
  s.orders.find? (fun o => !o.is_deleted && o.razorpay_order_id == oid)

/-- PaymentLogs lookup by gateway payment id (service.py lines 94-98). -/
def findLogByRzpPaymentId (s : DBState) (pid : String) : Option PaymentLog :=
  s.paymentLogs.find? (fun p => !p.is_deleted && p.razorpay_payment_id == pid)

/-- Webhook log lookup by event id (service.py lines 221-223). -/
def findWebhookLogByEventId (s : DBState) (eid : String) : Option RazorpayWebhookLog :=
  s.webhookLogs.find? (fun w => !w.is_deleted && w.event_id == eid)

/-- Registration lookup by primary key (handlers.py lines 32-36). -/
def findRegistrationByPVal (s : DBState) (v : PVal) : Option EventRegistrationsLink :=
  s.registrations.find? (fun r => !r.is_deleted && pvalEqNat v r.id)

/-- Registration lookup by payment receipt (handlers.py lines 72-76). -/
def findRegistrationByReceipt (s : DBState) (receipt : String) :
    Option EventRegistrationsLink :=
  s.registrations.find? (fun r => !r.is_deleted && r.payment_receipt == some receipt)

/-- Events existence check (handlers.py lines 26-28). -/
def eventExistsMatching (s : DBState) (v : PVal) : Bool :=
  s.events.any (fun e => !e.is_deleted && pvalEqNat v e.id)

/-- Events lookup by id (handlers.py lines 109-113). -/
def findEventById (s : DBState) (eid : Nat) : Option EventRow :=
  s.events.find? (fun e => !e.is_deleted && e.id == eid)

/-- Users lookup through the order.user relationship with the loader
criterion applied (service.py lines 166-170). -/
def findUserById (s : DBState) (uid : Nat) : Option UserRow :=
  s.users.find? (fun u => !u.is_deleted && u.id == uid)

/-! Session writes, applied at commit time. -/

/-- Commit of an in-memory update of a registration row. -/
def setRegistration (s : DBState) (reg : EventRegistrationsLink) : DBState :=
  { s with registrations :=
      s.registrations.map (fun r => if r.id == reg.id then reg else r) }

/-- Commit of an in-memory update of an order row. -/
def setOrder (s : DBState) (o : PaymentOrder) : DBState :=
  { s with orders := s.orders.map (fun q => if q.id == o.id then o else q) }

/-- Commit of a payment log: insert when the row was session.add-ed in this
call, update otherwise. -/
def commitLog (s : DBState) (isNew : Bool) (p : PaymentLog) : DBState :=
  if isNew then
    { s with paymentLogs := s.paymentLogs ++ [p], nextId := s.nextId + 1 }
  else
    { s with paymentLogs := s.paymentLogs.map (fun q => if q.id == p.id then p else q) }

/-- Fresh sum of amounts over the order's captured PaymentLogs rows,
select(func.sum(PaymentLogs.amount)) or 0 in handlers.py lines 89-97. -/
def capturedSumPaise (s : DBState) (order_id : Nat) : Rat :=
  ((s.paymentLogs.filter
      (fun p => !p.is_deleted && p.order_id == order_id
        && p.status == PaymentStatus.captured)).map (fun p => p.amount)).sum

/-- Python int() truncates toward zero. -/
def pyInt (q : Rat) : Int := Int.tdiv q.num (q.den : Int)

/-- Python substring membership test, needle in haystack on strings; the
source's test payment_method in ("card") is a substring test against the
plain string "card", not a tuple membership. -/
def pyInStr (needle haystack : String) : Bool :=
  decide (needle.toList <:+: haystack.toList)

/-! Payable Resolver (handlers.py). -/

/-- Translation of validate_event_registration_payload (handlers.py lines
12-62).  The isinstance guard of lines 53-54 can never fire for Float columns
and is omitted; float() on line 60 is the identity here. -/
def validate_event_registration_payload (s : DBState) (payload : PDict) :
    Out (Rat × String) :=
  match pdictGet payload "event_id", pdictGet payload "event_registration_id" with
  | none, none =>
      ⟨s, [], .error (.requestValidation
        [("event_id", "event_id is required"),
         ("event_registration_id", "event_registration_id is required")])⟩
  | none, some _ =>
      ⟨s, [], .error (.requestValidation [("event_id", "event_id is required")])⟩
  | some _, none =>
      ⟨s, [], .error (.requestValidation
        [("event_registration_id", "event_registration_id is required")])⟩
  | some ev, some er =>
      if !eventExistsMatching s ev then
        ⟨s, [], .error (.requestValidation [("event_id", "event_id is invalid")])⟩
      else
        match findRegistrationByPVal s er with
        | none =>
            ⟨s, [], .error (.requestValidation
              [("event_registration_id", "event_registration_id is invalid")])⟩
        | some event_registration =>
            if event_registration.is_paid then
              ⟨s, [], .error (.requestValidation
                [("event_registration_id", "already paid")])⟩
            else
              let amount_to_pay :=
                event_registration.actual_amount - event_registration.paid_amount
              if amount_to_pay = 0 then
                ⟨s, [], .error (.requestValidation
                  [("event_registration_id", "nothing to pay")])⟩
              else
                let receipt := "er_" ++ event_registration.ticket_id
                let reg' := { event_registration with payment_receipt := some receipt }
                ⟨setRegistration s reg', [], .ok (amount_to_pay, receipt)⟩

/-- Translation of validate_payload (handlers.py lines 155-161). -/
def validate_payload (s : DBState) (source : String) (payload : PDict) :
    Out (Rat × String) :=
  if source == "event_registration" then
    validate_event_registration_payload s payload
  else
    ⟨s, [], .error (.requestValidation [("source", "source is invalid")])⟩

/-! Order Manager (service.py lines 33-76). -/

/-- Translation of create_razorpay_order.  The gateway order creation appears
as a gatewayOrderCreate effect; the commit enforces the unique constraint on
razorpay_order_id against every stored row. -/
def create_razorpay_order (env : Env) (s : DBState) (source : String)
    (payload : PDict) (user_id : Nat) : Out PaymentOrder :=
  match validate_payload s source payload with
  | ⟨s1, eff1, .error e⟩ => ⟨s1, eff1, .error e⟩
  | ⟨s1, eff1, .ok (amount_in_rupee, db_receipt)⟩ =>
    let current_timestamp := env.now
    let receipt := db_receipt ++ "#" ++ toString current_timestamp
    match findOrderByReceipt s1 db_receipt with
    | some existing_order => ⟨s1, eff1, .ok existing_order⟩
    | none =>
      let amount_in_paise := pyInt (amount_in_rupee * 100)
      let razorpay_order_id := env.createOrderId
      let db_order : PaymentOrder :=
        { id := s1.nextId
          receipt := db_receipt
          razorpay_receipt := receipt
          razorpay_order_id := razorpay_order_id
          amount := amount_in_rupee
          currency := "INR"
          status := .created
          user_id := some user_id
          source := source
          payload := payload
          is_deleted := false }
      let eff := eff1 ++ [Effect.gatewayOrderCreate amount_in_paise "INR" receipt]
      if s1.orders.any (fun o => o.razorpay_order_id == razorpay_order_id) then
        ⟨s1, eff, .error (.integrityError "payment_orders.razorpay_order_id")⟩
      else
        ⟨{ s1 with orders := s1.orders ++ [db_order], nextId := s1.nextId + 1 },
          eff, .ok db_order⟩

/-! Post-Payment Dispatcher (handlers.py lines 65-170). -/

/-- Translation of handle_event_registration_payment (handlers.py lines
65-145).  The confirmation e-mail block is wrapped in try/except in the
source, so a missing event only suppresses the e-mail; the print statements
have no effect on state. -/
def handle_event_registration_payment (s : DBState) (order : PaymentOrder) :
    Out Bool :=
  match findRegistrationByReceipt s order.receipt with
  | none => ⟨s, [], .error (.requestValidation [("receipt", "receipt is invalid")])⟩
  | some event_registration =>
    let total_paid := capturedSumPaise s order.id / 100
    let reg' := { event_registration with
      is_paid := decide (event_registration.actual_amount ≤ total_paid)
      paid_amount := total_paid }
    let s1 := setRegistration s reg'
    if !reg'.is_paid then ⟨s1, [], .ok true⟩
    else
      ⟨s1,
       (match findEventById s1 event_registration.event_id with
        | some _ => [Effect.registrationConfirmationEmail event_registration.id]
        | none => []),
       .ok true⟩

/-- Translation of handle_post_payment (handlers.py lines 164-170). -/
def handle_post_payment (s : DBState) (order : PaymentOrder) : Out Bool :=
  if order.source == "event_registration" then
    handle_event_registration_payment s order
  else
    ⟨s, [], .error (.requestValidation [("source", "source is invalid")])⟩

/-! Payment Verifier (service.py lines 79-205). -/

/-- Expanded-details refetch (service.py lines 124-128).  With the flag set,
a null payment_method raises TypeError since Python evaluates None in "card";
otherwise the substring test selects the refetch. -/
def expandFetch (env : Env) (pid : String) (pd : GatewayPayment)
    (expand_payment_details : Bool) :
    Except PyErr (GatewayPayment × List Effect) :=
  if expand_payment_details then
    match pd.method with
    | none => .error .typeErrorNone
    | some m =>
      if pyInStr m "card" then
        .ok (env.fetchPaymentExpanded pid, [Effect.gatewayPaymentFetch pid true])
      else .ok (pd, [])
  else .ok (pd, [])

/-- Method-specific normalization (service.py lines 122-152), computing
payment_method_details from the (possibly refetched) payment_details.  In the
card branch payment_method_details is still the empty dict, so its get of
"card" yields null and the stored value is acquirer_data. -/
def normalizeMethodDetails (payment_method : Option String) (pd : GatewayPayment) :
    Except PyErr MethodDetails :=
  if payment_method == some "upi" then
    .ok (match pd.upi with | some v => .jstr v | none => .jnull)
  else if payment_method == some "netbanking" then
    let d := pd.acquirer_data.getD []
    .ok (.jdict (jdictSet d "bank" (jdictGet d "bank")))
  else if payment_method == some "card" then
    .ok (match pd.acquirer_data with | some d => .jdict d | none => .jnull)
  else if payment_method == some "wallet" then
    let d := pd.acquirer_data.getD []
    .ok (.jdict (jdictSet d "wallet" pd.wallet))
  else .error (.requestValidation [("payment_method", "Invalid payment method")])

/-- Body of verify_razorpay_payment after the idempotency early return of
lines 100-101, with the two initial lookups passed in. -/
def verifyAfterCapturedCheck (env : Env) (s : DBState)
    (order? : Option PaymentOrder) (db_payment? : Option PaymentLog)
    (razorpay_payment_id : String) (payment_details : Option GatewayPayment)
    (expand_payment_details : Bool) (send_receipt : Bool) :
    Out (Option PaymentLog) :=
  match order? with
  | none =>
    -- line 103 evaluates order.status with order None: AttributeError
    ⟨s, [], .error (.attributeErrorNone "status")⟩
  | some order =>
    if order.status = OrderStatus.paid then
      ⟨s, [], .error (.requestValidation [("razorpay_order_id", "Order already paid")])⟩
    else
      let db_payment :=
        match db_payment? with
        | some p => p
        | none =>
          { id := s.nextId
            order_id := order.id
            razorpay_payment_id := razorpay_payment_id
            status := PaymentStatus.created
            amount := 0
            payment_method := none
            payment_details := none
            is_deleted := false }
      let isNew := db_payment?.isNone
      let fetched :=
        match payment_details with
        | some pd => (pd, ([] : List Effect))
        | none =>
          (env.fetchPayment razorpay_payment_id,
           [Effect.gatewayPaymentFetch razorpay_payment_id false])
      let payment_details0 := fetched.1
      let eff0 := fetched.2
      let payment_status := payment_details0.status
      let payment_method := payment_details0.method
      match expandFetch env razorpay_payment_id payment_details0 expand_payment_details with
      | .error e => ⟨s, eff0, .error e⟩
      | .ok (pd1, eff1) =>
        match normalizeMethodDetails payment_method pd1 with
        | .error e => ⟨s, eff0 ++ eff1, .error e⟩
        | .ok payment_method_details =>
          if payment_status == some "captured" then
            let db_payment1 := { db_payment with
              status := PaymentStatus.captured
              amount := ((pd1.amount.getD 0 : Int) : Rat)
              payment_method := payment_method
              payment_details := some payment_method_details }
            let order1 := { order with status := OrderStatus.paid }
            -- commit (line 160): the insert of a fresh row must satisfy the
            -- unique constraint on razorpay_payment_id, checked against every
            -- stored row, soft-deleted rows included
            if isNew && s.paymentLogs.any
                (fun p => p.razorpay_payment_id == razorpay_payment_id) then
              ⟨s, eff0 ++ eff1, .error (.integrityError "payment_logs.razorpay_payment_id")⟩
            else
              let s2 := setOrder (commitLog s isNew db_payment1) order1
              match handle_post_payment s2 order1 with
              | ⟨s3, eff3, .error e⟩ =>
                ⟨s3, eff0 ++ eff1 ++ [Effect.postPaymentDispatch order1.id] ++ eff3, .error e⟩
              | ⟨s3, eff3, .ok _⟩ =>
                let emailEff :=
                  if send_receipt then
                    match order1.user_id with
                    | some uid =>
                      match findUserById s3 uid with
                      | some _ => [Effect.paymentReceiptEmail order1.id]
                      | none => []
                    | none => []
                  else []
                ⟨s3, eff0 ++ eff1 ++ [Effect.postPaymentDispatch order1.id] ++ eff3 ++ emailEff,
                  .ok (findLogByRzpPaymentId s3 razorpay_payment_id)⟩
          else
            match payment_status.bind PaymentStatus.ofString with
            | none =>
              -- assigning an unknown or null raw status to the non-nullable
              -- Enum column makes the commit of line 198 raise
              ⟨s, eff0 ++ eff1, .error (.integrityError "payment_logs.status")⟩
            | some st =>
              let db_payment1 := { db_payment with
                status := st
                amount := ((pd1.amount.getD 0 : Int) : Rat)
                payment_method := payment_method
                payment_details := some payment_method_details }
              let order1 := { order with status := OrderStatus.attempted }
              if isNew && s.paymentLogs.any
                  (fun p => p.razorpay_payment_id == razorpay_payment_id) then
                ⟨s, eff0 ++ eff1, .error (.integrityError "payment_logs.razorpay_payment_id")⟩
              else
                let s2 := setOrder (commitLog s isNew db_payment1) order1
                ⟨s2, eff0 ++ eff1, .ok (findLogByRzpPaymentId s2 razorpay_payment_id)⟩

/-- Dispatch on the result of the two initial lookups of lines 88-98: an
existing captured log is returned unchanged (lines 100-101), anything else
falls through to the rest of the function. -/
def verifyWithLookups (env : Env) (s : DBState) (order? : Option PaymentOrder)
    (db_payment? : Option PaymentLog) (razorpay_payment_id : String)
    (payment_details : Option GatewayPayment)
    (expand_payment_details : Bool) (send_receipt : Bool) :
    Out (Option PaymentLog) :=
  match db_payment? with
  | some p =>
    if p.status = PaymentStatus.captured then ⟨s, [], .ok (some p)⟩
    else verifyAfterCapturedCheck env s order? (some p) razorpay_payment_id
      payment_details expand_payment_details send_receipt
  | none => verifyAfterCapturedCheck env s order? none razorpay_payment_id
      payment_details expand_payment_details send_receipt

/-- Translation of verify_razorpay_payment (service.py lines 79-205).  The
returned value is the reselected PaymentLogs row (lines 200-205), which the
router tests for null. -/
def verify_razorpay_payment (env : Env) (s : DBState)
    (razorpay_order_id razorpay_payment_id : String)
    (payment_details : Option GatewayPayment)
    (expand_payment_details : Bool) (send_receipt : Bool) :
    Out (Option PaymentLog) :=
  verifyWithLookups env s (findOrderByRzpOrderId s razorpay_order_id)
    (findLogByRzpPaymentId s razorpay_payment_id) razorpay_payment_id
    payment_details expand_payment_details send_receipt

/-! Webhook Ingestor (service.py lines 208-244 and router.py lines 65-86). -/

/-- Translation of handle_razorpay_webhook (service.py lines 208-244).  The
function inserts and commits the WebhookLog row first (lines 211-219); the
commit enforces the unique constraint on event_id.  The dedup lookup of lines
221-225 runs after that insert, so it finds the row just written.  A null
payment or order id reaching the verify call queries like an unmatched key;
it is modelled as the empty string, which the lookups treat the same way. -/
def handle_razorpay_webhook (env : Env) (s : DBState) (data : WebhookData)
    (event_id : String) (signature : String) : Out (Option Unit) :=
  let webhook_log : RazorpayWebhookLog :=
    { id := s.nextId
      event_id := event_id
      entity := data.entity
      event := data.event
      signature := signature
      payload := data.payload
      is_deleted := false }
  if s.webhookLogs.any (fun w => w.event_id == event_id) then
    ⟨s, [], .error (.integrityError "razorpay_webhook_logs.event_id")⟩
  else
    let s1 := { s with webhookLogs := s.webhookLogs ++ [webhook_log],
                       nextId := s.nextId + 1 }
    match findWebhookLogByEventId s1 event_id with
    | some _ => ⟨s1, [], .ok none⟩
    | none =>
      match ((data.payload.getD { payment := none }).payment.getD
          { entity := none }).entity with
      | none => ⟨s1, [], .error (.requestValidation [("payload", "Invalid payload")])⟩
      | some payload =>
        let payment_id := (payload.id).getD ""
        let order_id := (payload.order_id).getD ""
        let out := verify_razorpay_payment env s1 order_id payment_id
          (some payload) false true
        ⟨out.state,
          Effect.verifierInvoked order_id payment_id :: out.effects,
          out.result.map (fun _ => none)⟩

/-- Translation of the webhook endpoint razorpay_webhook (router.py lines
65-86): signature verification over the raw request body guards the call into
the service; a failed verification raises HTTPException 400. -/
def razorpay_webhook (env : Env) (s : DBState) (request_body : String)
    (webhook_signature : String) (event_id : String) (data : WebhookData) :
    Out (Option Unit) :=
  if env.webhookSignatureValid request_body webhook_signature then
    handle_razorpay_webhook env s data event_id webhook_signature
  else
    ⟨s, [], .error (.httpError 400 "Invalid webhook signature")⟩

/-! Concrete fixtures used by the claim theorems and witnesses. -/

/-- A live, unpaid event registration owing 500 rupees with receipt er_T1. -/
def regW : EventRegistrationsLink :=
  { id := 11, event_id := 5, user_id := 7, ticket_id := "T1",
    is_paid := false, paid_amount := 0, actual_amount := 500,
    payment_receipt := some "er_T1", is_deleted := false }

/-- A live payment order of 500 rupees for receipt er_T1. -/
def orderW : PaymentOrder :=
  { id := 1, receipt := "er_T1", razorpay_receipt := "er_T1#0",
    razorpay_order_id := "order_A", amount := 500, currency := "INR",
    status := .created, user_id := some 7, source := "event_registration",
    payload := [("event_id", .i 5), ("event_registration_id", .i 11)],
    is_deleted := false }

/-- An all-null gateway payment object. -/
def gpNull : GatewayPayment :=
  { id := none, order_id := none, status := none, method := none,
    amount := none, upi := none, acquirer_data := none, wallet := none }

/-- Gateway environment whose signature verification accepts. -/
def envW : Env :=
  { now := 0, createOrderId := "order_B",
    fetchPayment := fun _ => gpNull,
    fetchPaymentExpanded := fun _ => gpNull,
    webhookSignatureValid := fun _ _ => true }

/-- Base state: one event, the registration regW, the order orderW, no
payment or webhook logs yet. -/
def sW1 : DBState :=
  { events := [{ id := 5, is_deleted := false }],
    registrations := [regW],
    orders := [orderW],
    paymentLogs := [],
    webhookLogs := [],
    users := [],
    nextId := 100 }

/-- A captured gateway payment of 20000 paise (200 rupees) against orderW. -/
def gpW1 : GatewayPayment :=
  { id := some "pay_A", order_id := some "order_A", status := some "captured",
    method := some "upi", amount := some 20000, upi := some "x@upi",
    acquirer_data := none, wallet := none }

/-- A well-formed webhook body carrying gpW1. -/
def dataW : WebhookData :=
  { entity := some "event", event := some "payment.captured",
    payload := some { payment := some { entity := some gpW1 } } }

/-! Claim theorems. -/

/-- C1.  The settlement invariant fails in the code: verify_razorpay_payment
(service.py line 159) sets order.status to paid unconditionally whenever the
gateway reports a captured payment, with no recomputation of the captured sum
against the order amount.  At the failing input — order amount 500, a single
captured payment of 20000 paise — the order ends paid although the captured
sum divided by 100 is 200, strictly below the order amount, contradicting
the claimed equivalence. -/
theorem c1_partial_capture_flips_order_to_paid :
    ((verify_razorpay_payment envW sW1 "order_A" "pay_A" (some gpW1) true
        true).state.orders.map (fun o => o.status) = [OrderStatus.paid]) ∧
    capturedSumPaise (verify_razorpay_payment envW sW1 "order_A" "pay_A"
        (some gpW1) true true).state orderW.id / 100 = 200 ∧
    (200 : Rat) < orderW.amount := by
  apply of_decide_eq_true
  with_unfolding_all rfl

/-- C2.  On a first-time delivery with a fresh eventId and a well-formed
payload, handle_razorpay_webhook does record exactly one WebhookLog row,
but the dedup lookup of service.py lines 221-225 runs after that insert,
finds the row just written, and returns immediately: the Payment Verifier is
never invoked (the effect trace stays empty) and no payment state changes. -/
theorem c2_webhook_first_delivery_never_reaches_verifier :
    (handle_razorpay_webhook envW sW1 dataW "evt_1" "sig").result = .ok none ∧
    (handle_razorpay_webhook envW sW1 dataW "evt_1" "sig").state.webhookLogs.map
        (fun w => w.event_id) = ["evt_1"] ∧
    (handle_razorpay_webhook envW sW1 dataW "evt_1" "sig").effects = [] ∧
    (handle_razorpay_webhook envW sW1 dataW "evt_1" "sig").state.paymentLogs
        = sW1.paymentLogs ∧
    (handle_razorpay_webhook envW sW1 dataW "evt_1" "sig").state.orders
        = sW1.orders := by
  decide

/-- State after the first (successful) delivery of event evt_1. -/
def sW3 : DBState := (handle_razorpay_webhook envW sW1 dataW "evt_1" "sig").state

/-- C3.  Delivering the same eventId again after a successful first delivery
does not return success: handle_razorpay_webhook inserts the WebhookLog row
before any dedup check, so the second insert violates the unique constraint
on event_id and the commit of service.py line 219 raises IntegrityError
(surfaced as a 500, since the router does not catch it).  Stored state is
unchanged by the rolled-back transaction. -/
theorem c3_webhook_duplicate_delivery_raises :
    handle_razorpay_webhook envW sW3 dataW "evt_1" "sig" =
      ⟨sW3, [], .error (.integrityError "razorpay_webhook_logs.event_id")⟩ := by
  decide

/-- C4.  Verification of an already-captured gatewayPaymentId is idempotent:
when the PaymentLogs lookup returns a captured row, verify_razorpay_payment
(service.py lines 100-101) returns that row unchanged, with no state change
and no effects — in particular the Post-Payment Dispatcher is not invoked —
whether or not inline payment details are supplied. -/
theorem c4_verify_already_captured_idempotent (env : Env) (s : DBState)
    (oid pid : String) (pd : Option GatewayPayment) (exp sr : Bool)
    (p : PaymentLog)
    (hfind : findLogByRzpPaymentId s pid = some p)
    (hcap : p.status = PaymentStatus.captured) :
    verify_razorpay_payment env s oid pid pd exp sr = ⟨s, [], .ok (some p)⟩ := by
  unfold verify_razorpay_payment verifyWithLookups
  rw [hfind]
  simp [hcap]

/-- An already-captured payment log row for pay_C. -/
def logW4 : PaymentLog :=
  { id := 50, order_id := 1, razorpay_payment_id := "pay_C",
    status := PaymentStatus.captured, amount := 50000,
    payment_method := some "upi", payment_details := some .jnull,
    is_deleted := false }

/-- State with the already-captured payment log logW4. -/
def sW4 : DBState := { sW1 with paymentLogs := [logW4] }

/-- Witness for C4 at a concrete state. -/
theorem c4_witness :
    findLogByRzpPaymentId sW4 "pay_C" = some logW4 ∧
    logW4.status = PaymentStatus.captured ∧
    verify_razorpay_payment envW sW4 "order_A" "pay_C" none true true =
      ⟨sW4, [], .ok (some logW4)⟩ :=
  ⟨by decide, by decide,
   c4_verify_already_captured_idempotent envW sW4 "order_A" "pay_C" none true
     true logW4 (by decide) (by decide)⟩

/-- C6.  An invalid webhook signature is rejected by the endpoint before the
service is called: the state is unchanged (so no WebhookLog row is created)
and the effect trace is empty (so the Payment Verifier is never invoked). -/
theorem c6_bad_signature_rejected_without_side_effects (env : Env)
    (s : DBState) (body sig eid : String) (data : WebhookData)
    (hbad : env.webhookSignatureValid body sig = false) :
    razorpay_webhook env s body sig eid data =
      ⟨s, [], .error (.httpError 400 "Invalid webhook signature")⟩ := by
  unfold razorpay_webhook
  simp [hbad]

/-- Environment that rejects every webhook signature. -/
def envBad : Env := { envW with webhookSignatureValid := fun _ _ => false }

/-- Witness for C6 at a concrete request. -/
theorem c6_witness :
    envBad.webhookSignatureValid "body" "sig" = false ∧
    razorpay_webhook envBad sW1 "body" "sig" "evt_9" dataW =
      ⟨sW1, [], .error (.httpError 400 "Invalid webhook signature")⟩ :=
  ⟨rfl, c6_bad_signature_rejected_without_side_effects envBad sW1 "body" "sig"
    "evt_9" dataW rfl⟩

/-- C7.  Client-triggered verification of an order that is already paid, with
a gatewayPaymentId that has no captured log row, fails with the explicit
"Order already paid" error of service.py line 104, raised before any write:
the state is returned unchanged and no effects are produced. -/
theorem c7_already_paid_order_conflict (env : Env) (s : DBState)
    (oid pid : String) (pd : Option GatewayPayment) (exp sr : Bool)
    (order : PaymentOrder)
    (hord : findOrderByRzpOrderId s oid = some order)
    (hpaid : order.status = OrderStatus.paid)
    (hnocap : ∀ p, findLogByRzpPaymentId s pid = some p →
      p.status ≠ PaymentStatus.captured) :
    verify_razorpay_payment env s oid pid pd exp sr =
      ⟨s, [], .error (.requestValidation
        [("razorpay_order_id", "Order already paid")])⟩ := by
  unfold verify_razorpay_payment verifyWithLookups
  rw [hord]
  cases hlog : findLogByRzpPaymentId s pid with
  | none =>
    unfold verifyAfterCapturedCheck
    simp [hpaid]
  | some p =>
    have hne := hnocap p hlog
    unfold verifyAfterCapturedCheck
    simp [hne, hpaid]

/-- An already-paid order with gateway id order_P. -/
def orderW7 : PaymentOrder :=
  { orderW with razorpay_order_id := "order_P", status := .paid }

/-- State whose only order for order_P is already paid. -/
def sW7 : DBState := { sW1 with orders := [orderW7] }

/-- Witness for C7 at a concrete state. -/
theorem c7_witness :
    findOrderByRzpOrderId sW7 "order_P" = some orderW7 ∧
    orderW7.status = OrderStatus.paid ∧
    verify_razorpay_payment envW sW7 "order_P" "pay_new" none true true =
      ⟨sW7, [], .error (.requestValidation
        [("razorpay_order_id", "Order already paid")])⟩ :=
  ⟨by decide, by decide,
   c7_already_paid_order_conflict envW sW7 "order_P" "pay_new" none true true
     orderW7 (by decide) (by decide) (by decide)⟩

/-- C8.  Verification with a gatewayOrderId that has no PaymentOrders row
(and a gatewayPaymentId without a captured log) does not fail with NotFound:
the order lookup returns None and line 103 dereferences order.status,
raising AttributeError, which no caller converts into a NotFound response. -/
theorem c8_missing_order_raises_attribute_error :
    verify_razorpay_payment envW sW1 "order_missing" "pay_X" none true true =
      ⟨sW1, [], .error (.attributeErrorNone "status")⟩ := by
  decide

/-- Closed form of handle_event_registration_payment once the registration
lookup has resolved. -/
theorem handle_event_registration_payment_eq (s : DBState)
    (order : PaymentOrder) (reg : EventRegistrationsLink)
    (hreg : findRegistrationByReceipt s order.receipt = some reg) :
    handle_event_registration_payment s order =
      (let total := capturedSumPaise s order.id / 100
       let reg' := { reg with
         is_paid := decide (reg.actual_amount ≤ total)
         paid_amount := total }
       let s1 := setRegistration s reg'
       if !reg'.is_paid then ⟨s1, [], .ok true⟩
       else
         ⟨s1,
          (match findEventById s1 reg.event_id with
           | some _ => [Effect.registrationConfirmationEmail reg.id]
           | none => []),
          .ok true⟩) := by
  unfold handle_event_registration_payment
  rw [hreg]

/-- C9.  The post-payment handler for source event_registration resolves the
payable by order.receipt, recomputes the captured total as a fresh sum over
the order's captured PaymentLogs rows divided by 100, stores the paid flag as
the comparison of that total against the registration's actual_amount and the
paid_amount as the total itself, and returns successfully; below the
threshold no notification effect is produced and no error is raised. -/
theorem c9_event_registration_handler_recomputes_total (s : DBState)
    (order : PaymentOrder) (reg : EventRegistrationsLink)
    (hsrc : order.source = "event_registration")
    (hreg : findRegistrationByReceipt s order.receipt = some reg) :
    (handle_post_payment s order).result = .ok true ∧
    (handle_post_payment s order).state =
      setRegistration s { reg with
        is_paid := decide (reg.actual_amount ≤ capturedSumPaise s order.id / 100)
        paid_amount := capturedSumPaise s order.id / 100 } ∧
    (capturedSumPaise s order.id / 100 < reg.actual_amount →
      (handle_post_payment s order).effects = []) := by
  have hpp : handle_post_payment s order = handle_event_registration_payment s order := by
    unfold handle_post_payment
    simp [hsrc]
  rw [hpp, handle_event_registration_payment_eq s order reg hreg]
  dsimp only []
  cases hd : decide (reg.actual_amount ≤ capturedSumPaise s order.id / 100) with
  | false => exact ⟨rfl, rfl, fun _ => rfl⟩
  | true =>
    have hle := of_decide_eq_true hd
    exact ⟨rfl, rfl, fun hlt => absurd hlt (not_lt.mpr hle)⟩

/-- Witness for C9 at a concrete state: orderW against regW with no captured
rows, a partial-payment (zero captured) situation. -/
theorem c9_witness :
    orderW.source = "event_registration" ∧
    findRegistrationByReceipt sW1 orderW.receipt = some regW ∧
    ((handle_post_payment sW1 orderW).result = .ok true ∧
     (handle_post_payment sW1 orderW).state =
       setRegistration sW1 { regW with
         is_paid := decide (regW.actual_amount ≤ capturedSumPaise sW1 orderW.id / 100)
         paid_amount := capturedSumPaise sW1 orderW.id / 100 } ∧
     (capturedSumPaise sW1 orderW.id / 100 < regW.actual_amount →
       (handle_post_payment sW1 orderW).effects = [])) :=
  ⟨rfl, by decide,
   c9_event_registration_handler_recomputes_total sW1 orderW regW rfl (by decide)⟩

/-- C10 part lemma: a successful find? only returns rows passing the loader
criterion, whose first conjunct is the is_deleted filter. -/
theorem find?_live {α : Type} (q : α → Bool) (del : α → Bool) (l : List α)
    (x : α) (h : l.find? (fun y => !del y && q y) = some x) : del x = false := by
  have hx := List.find?_some h
  simp only [Bool.and_eq_true, Bool.not_eq_true'] at hx
  exact hx.1

/-- The PaymentOrders row that create_razorpay_order persists when no live
order blocks the receipt. -/
def freshOrder (s1 : DBState) (env : Env) (source : String) (payload : PDict)
    (uid : Nat) (a : Rat) (r : String) : PaymentOrder :=
  { id := s1.nextId
    receipt := r
    razorpay_receipt := r ++ "#" ++ toString env.now
    razorpay_order_id := env.createOrderId
    amount := a
    currency := "INR"
    status := .created
    user_id := some uid
    source := source
    payload := payload
    is_deleted := false }

/-- C10.  Every payment read goes through the session loader criterion, so a
returned row always has is_deleted false; and when every order carrying the
resolved receipt is soft-deleted, create_razorpay_order proceeds to create a
fresh live order for that receipt (hfresh keeps the gateway id constraint
satisfiable). -/
theorem c10_soft_delete_loader_criterion (s s1 : DBState)
    (r oid pid eid : String) (env : Env) (source : String) (payload : PDict)
    (uid : Nat) (a : Rat)
    (hval : validate_payload s source payload = ⟨s1, [], .ok (a, r)⟩)
    (hdel : ∀ o ∈ s1.orders, o.receipt = r → o.is_deleted = true)
    (hfresh : ∀ o ∈ s1.orders, ¬ o.razorpay_order_id = env.createOrderId) :
    (∀ o, findOrderByReceipt s r = some o → o.is_deleted = false) ∧
    (∀ o, findOrderByRzpOrderId s oid = some o → o.is_deleted = false) ∧
    (∀ p, findLogByRzpPaymentId s pid = some p → p.is_deleted = false) ∧
    (∀ w, findWebhookLogByEventId s eid = some w → w.is_deleted = false) ∧
    (∃ db_order : PaymentOrder, db_order.receipt = r ∧
      db_order.is_deleted = false ∧ db_order.status = OrderStatus.created ∧
      create_razorpay_order env s source payload uid =
        ⟨{ s1 with orders := s1.orders ++ [db_order], nextId := s1.nextId + 1 },
         [Effect.gatewayOrderCreate (pyInt (a * 100)) "INR"
            (r ++ "#" ++ toString env.now)], .ok db_order⟩) := by
  refine ⟨fun o h => find?_live _ _ _ _ h, fun o h => find?_live _ _ _ _ h,
    fun p h => find?_live _ _ _ _ h, fun w h => find?_live _ _ _ _ h, ?_⟩
  have hnone : findOrderByReceipt s1 r = none := by
    unfold findOrderByReceipt
    refine List.find?_eq_none.mpr ?_
    intro o ho
    simp only [Bool.and_eq_true, Bool.not_eq_true', beq_iff_eq, not_and]
    intro h1 h2
    rw [hdel o ho h2] at h1
    cases h1
  have hany : (s1.orders.any
      (fun o => o.razorpay_order_id == env.createOrderId)) = false := by
    rw [List.any_eq_false]
    intro o ho
    simp only [beq_iff_eq]
    exact hfresh o ho
  refine ⟨freshOrder s1 env source payload uid a r, rfl, rfl, rfl, ?_⟩
  unfold create_razorpay_order
  rw [hval]
  dsimp only []
  rw [hnone]
  simp [hany, freshOrder]

/-- The base order soft-deleted: its receipt no longer blocks creation. -/
def orderWDel : PaymentOrder := { orderW with is_deleted := true }

/-- State whose only order for receipt er_T1 is soft-deleted. -/
def sW10 : DBState := { sW1 with orders := [orderWDel] }

/-- The creation payload referencing regW. -/
def payloadW : PDict := [("event_id", .i 5), ("event_registration_id", .i 11)]

set_option maxRecDepth 8000 in
/-- Witness for C10 at a concrete state. -/
theorem c10_witness :
    validate_payload sW10 "event_registration" payloadW =
      ⟨sW10, [], .ok (500, "er_T1")⟩ ∧
    (∀ o ∈ sW10.orders, o.receipt = "er_T1" → o.is_deleted = true) ∧
    (∀ o ∈ sW10.orders, ¬ o.razorpay_order_id = envW.createOrderId) ∧
    ((∀ o, findOrderByReceipt sW10 "er_T1" = some o → o.is_deleted = false) ∧
     (∀ o, findOrderByRzpOrderId sW10 "order_A" = some o → o.is_deleted = false) ∧
     (∀ p, findLogByRzpPaymentId sW10 "pay_A" = some p → p.is_deleted = false) ∧
     (∀ w, findWebhookLogByEventId sW10 "evt_1" = some w → w.is_deleted = false) ∧
     (∃ db_order : PaymentOrder, db_order.receipt = "er_T1" ∧
       db_order.is_deleted = false ∧ db_order.status = OrderStatus.created ∧
       create_razorpay_order envW sW10 "event_registration" payloadW 7 =
         ⟨{ sW10 with orders := sW10.orders ++ [db_order], nextId := sW10.nextId + 1 },
          [Effect.gatewayOrderCreate (pyInt (500 * 100)) "INR"
             ("er_T1" ++ "#" ++ toString envW.now)], .ok db_order⟩)) :=
  ⟨by apply of_decide_eq_true; with_unfolding_all rfl, by decide, by decide,
   c10_soft_delete_loader_criterion sW10 sW10 "er_T1" "order_A" "pay_A" "evt_1"
     envW "event_registration" payloadW 7 500
     (by apply of_decide_eq_true; with_unfolding_all rfl) (by decide) (by decide)⟩

/-- find? after an in-place keyed replacement: if find? selected x and the
replacement y both matches the key predicate g at x and still satisfies the
search predicate f, the replaced list finds y. -/
theorem find?_map_keyed_replace {α : Type} (f g : α → Bool) (x y : α)
    (l : List α) (h : l.find? f = some x) (hg : g x = true)
    (hf : f y = true) :
    (l.map (fun z => if g z then y else z)).find? f = some y := by
  induction l with
  | nil => simp at h
  | cons a t ih =>
    by_cases hfa : f a = true
    · rw [List.find?_cons_of_pos _ hfa] at h
      have ha : a = x := by injection h
      subst ha
      simp only [List.map_cons]
      rw [if_pos hg]
      exact List.find?_cons_of_pos _ hf
    · rw [List.find?_cons_of_neg _ hfa] at h
      simp only [List.map_cons]
      by_cases hga : g a = true
      · rw [if_pos hga]
        exact List.find?_cons_of_pos _ hf
      · rw [if_neg hga]
        rw [List.find?_cons_of_neg _ hfa]
        exact ih h

/-- Inversion of a successful payload validation: the guards the success path
of validate_event_registration_payload established and the exact result. -/
theorem validate_event_registration_payload_ok (s s1 : DBState)
    (payload : PDict) (a : Rat) (r : String)
    (h : validate_event_registration_payload s payload = ⟨s1, [], .ok (a, r)⟩) :
    ∃ ev er reg, pdictGet payload "event_id" = some ev ∧
      pdictGet payload "event_registration_id" = some er ∧
      eventExistsMatching s ev = true ∧
      findRegistrationByPVal s er = some reg ∧
      reg.is_paid = false ∧
      ¬ (reg.actual_amount - reg.paid_amount = 0) ∧
      a = reg.actual_amount - reg.paid_amount ∧
      r = "er_" ++ reg.ticket_id ∧
      s1 = setRegistration s
        { reg with payment_receipt := some ("er_" ++ reg.ticket_id) } := by
  unfold validate_event_registration_payload at h
  split at h
  · simp at h
  · simp at h
  · simp at h
  · rename_i ev er hev her
    split at h
    · simp at h
    · rename_i hex
      split at h
      · simp at h
      · rename_i reg hreg
        split at h
        · simp at h
        · rename_i hp
          dsimp only [] at h
          split at h
          · simp at h
          · rename_i hz
            simp only [Out.mk.injEq, Except.ok.injEq, Prod.mk.injEq] at h
            refine ⟨ev, er, reg, hev, her, ?_, hreg, ?_, hz, ?_, ?_, ?_⟩
            · simpa using hex
            · simpa using hp
            · exact h.2.2.1.symm
            · exact h.2.2.2.symm
            · exact h.1.symm

/-- Forward evaluation of validate_event_registration_payload along its
success path. -/
theorem validate_event_registration_payload_eval (s : DBState)
    (payload : PDict) (ev er : PVal) (reg : EventRegistrationsLink)
    (hev : pdictGet payload "event_id" = some ev)
    (her : pdictGet payload "event_registration_id" = some er)
    (hex : eventExistsMatching s ev = true)
    (hreg : findRegistrationByPVal s er = some reg)
    (hp : reg.is_paid = false)
    (hz : ¬ (reg.actual_amount - reg.paid_amount = 0)) :
    validate_event_registration_payload s payload =
      ⟨setRegistration s
         { reg with payment_receipt := some ("er_" ++ reg.ticket_id) },
       [], .ok (reg.actual_amount - reg.paid_amount, "er_" ++ reg.ticket_id)⟩ := by
  unfold validate_event_registration_payload
  rw [hev, her]
  simp [hex, hreg, hp, hz]

/-- A successful validation leaves the orders table unchanged, and running the
validation again revalidates to the same amount and receipt: the receipt
write onto the payable is idempotent. -/
theorem validate_payload_replay (s s1 : DBState) (source : String)
    (payload : PDict) (a : Rat) (r : String)
    (h : validate_payload s source payload = ⟨s1, [], .ok (a, r)⟩) :
    s1.orders = s.orders ∧
    ∃ s2, validate_payload s1 source payload = ⟨s2, [], .ok (a, r)⟩ ∧
      s2.orders = s1.orders := by
  unfold validate_payload at h ⊢
  by_cases hsrc : (source == "event_registration") = true
  · rw [if_pos hsrc] at h ⊢
    obtain ⟨ev, er, reg, hev, her, hex, hreg, hp, hz, ha, hr, hs1⟩ :=
      validate_event_registration_payload_ok s s1 payload a r h
    have hfr := List.find?_some hreg
    have hreg1 : findRegistrationByPVal s1 er =
        some { reg with payment_receipt := some ("er_" ++ reg.ticket_id) } := by
      rw [hs1]
      unfold findRegistrationByPVal setRegistration
      exact find?_map_keyed_replace _ _ reg _ s.registrations hreg
        (by simp) hfr
    have hex1 : eventExistsMatching s1 ev = true := by
      rw [hs1]; exact hex
    have heval := validate_event_registration_payload_eval s1 payload ev er
      { reg with payment_receipt := some ("er_" ++ reg.ticket_id) }
      hev her hex1 hreg1 hp hz
    constructor
    · rw [hs1]; rfl
    · exact ⟨setRegistration s1
          { reg with payment_receipt := some ("er_" ++ reg.ticket_id) },
        by rw [ha, hr]; exact heval, rfl⟩
  · rw [if_neg hsrc] at h
    simp at h

/-- C5.  With a valid (source, payload) resolving to receipt r for which a
live order o already exists, create_razorpay_order returns o itself with no
gateway order creation (empty effect trace) and no new PaymentOrders row
(orders unchanged by the whole call, the resolver touching only the
registration); consequently an immediately repeated create call returns the
same order o again. -/
theorem c5_create_order_idempotent (env env2 : Env) (s s1 : DBState)
    (source : String) (payload : PDict) (u1 u2 : Nat) (a : Rat) (r : String)
    (o : PaymentOrder)
    (hval : validate_payload s source payload = ⟨s1, [], .ok (a, r)⟩)
    (hex : findOrderByReceipt s1 r = some o) :
    create_razorpay_order env s source payload u1 = ⟨s1, [], .ok o⟩ ∧
    s1.orders = s.orders ∧
    ∃ s2, create_razorpay_order env2 s1 source payload u2 = ⟨s2, [], .ok o⟩ := by
  obtain ⟨hords, s2, hval2, hords2⟩ :=
    validate_payload_replay s s1 source payload a r hval
  refine ⟨?_, hords, ?_⟩
  · unfold create_razorpay_order
    rw [hval]
    dsimp only []
    rw [hex]
  · refine ⟨s2, ?_⟩
    unfold create_razorpay_order
    rw [hval2]
    dsimp only []
    have hex2 : findOrderByReceipt s2 r = some o := by
      unfold findOrderByReceipt
      rw [hords2]
      exact hex
    rw [hex2]

set_option maxRecDepth 8000 in
/-- Witness for C5 at a concrete state: sW1 already holds a live order for
receipt er_T1. -/
theorem c5_witness :
    validate_payload sW1 "event_registration" payloadW =
      ⟨sW1, [], .ok (500, "er_T1")⟩ ∧
    findOrderByReceipt sW1 "er_T1" = some orderW ∧
    (create_razorpay_order envW sW1 "event_registration" payloadW 7 =
       ⟨sW1, [], .ok orderW⟩ ∧
     sW1.orders = sW1.orders ∧
     ∃ s2, create_razorpay_order envW sW1 "event_registration" payloadW 7 =
       ⟨s2, [], .ok orderW⟩) :=
  ⟨by apply of_decide_eq_true; with_unfolding_all rfl, by decide,
   c5_create_order_idempotent envW envW sW1 sW1 "event_registration" payloadW
     7 7 500 "er_T1" orderW
     (by apply of_decide_eq_true; with_unfolding_all rfl) (by decide)⟩

end Moa
